import Mathlib

/-!
Verification of the OnAirScreen stream monitor (`stream_monitor.py`).

The development shallowly embeds the two classes of the module:

* `StreamMonitorThread` (the Connection Worker): its `run` loop,
  `_monitor_stream` read loop and `_sleep_with_check` pacing loop are
  modelled as functions over an explicit script of connection attempts
  and read results, producing the list of emitted online/offline events.
* `StreamMonitor` (the Coordinator): its state record and the operations
  `_resolve_stream_url`, `_start_monitor_thread`, `start`, `stop`,
  `restart`, `is_online` are modelled as pure state transformers; network
  fetches are supplied by an explicit oracle argument.

Python string primitives used by the resolver (`str.strip`, `str.lower`,
`str.splitlines`, `str.startswith`, `str.endswith`) are embedded for the
ASCII fragment the program manipulates.
-/

set_option autoImplicit false

namespace StreamMonitorModel

/-- Characters treated as whitespace by Python's `str.strip()` (ASCII fragment). -/
def pyIsSpace (c : Char) : Bool :=
  c = ' ' || c = '\t' || c = '\n' || c = '\r' || c = '\x0b' || c = '\x0c'

/-- Python `str.strip()`: drop leading and trailing whitespace. -/
def pyStrip (s : String) : String :=
  String.mk (((s.data.dropWhile pyIsSpace).reverse.dropWhile pyIsSpace).reverse)

/-- Python `str.lower()` (ASCII fragment). -/
def pyLower (s : String) : String :=
  String.mk (s.data.map Char.toLower)

/-- Python `s.endswith(t)`. -/
def pyEndsWith (s t : String) : Bool :=
  List.isSuffixOf t.data s.data

/-- Python `s.startswith(t)`. -/
def pyStartsWith (s t : String) : Bool :=
  List.isPrefixOf t.data s.data

/-- The playlist check of `_resolve_stream_url`: `url.lower().endswith('.m3u')`. -/
def isM3u (url : String) : Bool :=
  pyEndsWith (pyLower url) ".m3u"

/-- Helper for `pySplitlines`: accumulate the current line (reversed). -/
def pySplitlinesAux : List Char → List Char → List String
  | [], acc => if acc.isEmpty then [] else [String.mk acc.reverse]
  | '\r' :: '\n' :: rest, acc => String.mk acc.reverse :: pySplitlinesAux rest []
  | '\n' :: rest, acc => String.mk acc.reverse :: pySplitlinesAux rest []
  | '\r' :: rest, acc => String.mk acc.reverse :: pySplitlinesAux rest []
  | c :: rest, acc => pySplitlinesAux rest (c :: acc)

/-- Python `str.splitlines()` for the line terminators `\n`, `\r\n`, `\r`:
a trailing terminator produces no empty final line. -/
def pySplitlines (s : String) : List String :=
  pySplitlinesAux s.data []

/-- The `.m3u` parsing loop of `_resolve_stream_url`:
`for line in content.splitlines(): line = line.strip();
 if line and not line.startswith('#'): return line`. -/
def scanLines : List String → Option String
  | [] => none
  | line :: rest =>
    let l := pyStrip line
    if l = "" then scanLines rest
    else if pyStartsWith l "#" then scanLines rest
    else some l

/-- Python truthiness test `not x` for an `Optional[str]`: true on `None`
and on the empty string. -/
def pyFalsyStrOpt : Option String → Bool
  | none => true
  | some s => s = ""

/-- Embedding of `StreamMonitor._resolve_stream_url`. The fetch of the
playlist body is supplied by the oracle `fetch` (`none` models any raised
exception; `some body` the decoded response text). The function returns the
new values of the fields `(_resolved_stream_url, _m3u_url)`; `m3u_old` is
the previous value of `_m3u_url`, which the early-return branch for an
empty configured URL leaves untouched. -/
def resolve_stream_url (fetch : Option String) (stream_url : String)
    (m3u_old : Option String) : Option String × Option String :=
  if stream_url = "" then (none, m3u_old)
  else
    let url := pyStrip stream_url
    if isM3u url then
      match fetch with
      | some content => (scanLines (pySplitlines content), some url)
      | none => (none, some url)
    else (some url, none)

/-! ### Connection Worker (`StreamMonitorThread`) -/

/-- The mutable flags of a `StreamMonitorThread`: `_running` and `_is_online`. -/
structure WorkerState where
  running : Bool
  is_online : Bool
deriving DecidableEq, Repr

/-- Worker state at construction: `_running = True`, `_is_online = False`. -/
def initWorkerState : WorkerState := ⟨true, false⟩

/-- The events the worker can emit: the `stream_online` and `stream_offline`
signals. -/
inductive StreamEvent
  | online
  | offline
deriving DecidableEq, Repr

/-- One result of `response.read(4096)` inside `_monitor_stream`:
either a non-empty chunk arriving at absolute time `t`, or a
`socket.timeout` whose handler runs at absolute time `t`. -/
inductive ReadItem
  | chunk (t : ℚ)
  | timeout (t : ℚ)
deriving DecidableEq, Repr

/-- How the scripted read sequence ends, if no earlier item already raised:
an empty read (`ConnectionError("Stream ended")`), some other read
exception, or the inner `while self._running` guard observing a stop
request (the loop then returns normally). -/
inductive ReadOutcome
  | emptyRead
  | connError
  | stopped
deriving DecidableEq, Repr

/-- Whether `_monitor_stream` raised an exception or returned normally,
together with the worker flags at that point. -/
inductive MonitorResult
  | raised (st : WorkerState)
  | returned (st : WorkerState)
deriving DecidableEq, Repr

/-- Script for one iteration of the `run` loop: whether a stop request is
observed at the `while self._running` guard, whether `urlopen` succeeds,
the time at which the connection opens (`last_data_time` is set to it),
the scripted reads, how the read sequence ends, and whether a stop request
lands between the raise and the `if self._running` check of the handler. -/
structure ConnScript where
  stopBeforeIter : Bool
  opens : Bool
  openTime : ℚ
  reads : List ReadItem
  ending : ReadOutcome
  stopBeforeHandle : Bool
deriving DecidableEq, Repr

/-- The inner read loop of `_monitor_stream`: a non-empty chunk sets
`last_data_time` to its arrival time; on `socket.timeout` the elapsed
silence `t - last` is compared against the threshold and the loop raises
exactly when it is strictly greater; the scripted `ending` decides the
fate of the exhausted script. -/
def readLoop (θ : ℚ) (st : WorkerState) : ℚ → List ReadItem → ReadOutcome → MonitorResult
  | _, [], .emptyRead => .raised st
  | _, [], .connError => .raised st
  | _, [], .stopped => .returned {st with running := false}
  | _, .chunk t :: rest, e => readLoop θ st t rest e
  | last, .timeout t :: rest, e =>
    if t - last > θ then .raised st
    else readLoop θ st last rest e

/-- Embedding of `StreamMonitorThread._monitor_stream` for one scripted
connection attempt. An empty `_stream_url` raises `ValueError` before any
network I/O; a failed open raises; a successful open emits `stream_online`
exactly when `_is_online` is false (setting it), then runs the read loop
with `last_data_time` equal to the open time. Returns the outcome and the
events emitted during the call. -/
def monitor_stream (url : String) (θ : ℚ) (st : WorkerState) (cs : ConnScript) :
    MonitorResult × List StreamEvent :=
  if url = "" then (.raised st, [])
  else if cs.opens then
    if st.is_online then
      (readLoop θ st cs.openTime cs.reads cs.ending, [])
    else
      (readLoop θ {st with is_online := true} cs.openTime cs.reads cs.ending,
       [StreamEvent.online])
  else (.raised st, [])

/-- Embedding of the `run` loop of `StreamMonitorThread`: while `_running`,
call `_monitor_stream`; on an exception, if `_running` is still true, emit
`stream_offline` exactly when `_is_online` was true (clearing it) and pace
the reconnect, else exit silently. The scripted list of connection
attempts is processed as a finite prefix of the execution; the returned
list is the sequence of emitted events in order. -/
def runLoop (url : String) (θ : ℚ) : WorkerState → List ConnScript → List StreamEvent
  | _, [] => []
  | st, cs :: rest =>
    if !st.running || cs.stopBeforeIter then []
    else
      match monitor_stream url θ st cs with
      | (.returned _, evs) => evs
      | (.raised st1, evs) =>
        let st2 : WorkerState :=
          if cs.stopBeforeHandle then {st1 with running := false} else st1
        if st2.running then
          if st2.is_online then
            evs ++ StreamEvent.offline :: runLoop url θ {st2 with is_online := false} rest
          else
            evs ++ runLoop url θ st2 rest
        else evs

/-- Helper loop of `_sleep_with_check`: iteration counter `i` runs through
the range, `running` gives the value of the `_running` flag observed at the
check of iteration `i`, and the result counts the `time.sleep(0.1)` calls
actually executed. -/
def sleepGo (running : Nat → Bool) : Nat → Nat → Nat
  | _, 0 => 0
  | i, fuel + 1 =>
    if !running i then 0
    else 1 + sleepGo running (i + 1) fuel

/-- Embedding of `StreamMonitorThread._sleep_with_check`: the loop runs
`seconds * 10` iterations, each checking `_running` and then sleeping
100ms; the result is the number of 100ms sleeps performed. -/
def sleep_with_check (running : Nat → Bool) (seconds : Nat) : Nat :=
  sleepGo running 0 (seconds * 10)

/-- Boolean check that an event list strictly alternates online/offline
given the current online flag `b` (`false`: the next event must be
`online`; `true`: the next must be `offline`). -/
def altB : Bool → List StreamEvent → Bool
  | _, [] => true
  | false, .online :: rest => altB true rest
  | true, .offline :: rest => altB false rest
  | _, _ => false

/-! ### Monitor Coordinator (`StreamMonitor`) -/

/-- The flags of one spawned `StreamMonitorThread`, as seen from the
coordinator level: its `_running` and `_is_online` fields. -/
structure WorkerRec where
  running : Bool
  is_online : Bool
deriving DecidableEq, Repr

/-- Configuration loaded from the settings store by `_load_config`. -/
structure Config where
  enabled : Bool
  stream_url : String
  offline_threshold : Int
  reconnect_delay : Int
deriving DecidableEq, Repr

/-- State of a `StreamMonitor` instance. `workers` records every
`StreamMonitorThread` ever constructed by this coordinator, in creation
order; `monitor_thread` is the `_monitor_thread` handle as an index into
`workers` (`none` models `None`). -/
structure StreamMonitor where
  enabled : Bool
  stream_url : String
  offline_threshold : Int
  reconnect_delay : Int
  resolved_stream_url : Option String
  m3u_url : Option String
  monitor_thread : Option Nat
  workers : List WorkerRec
deriving DecidableEq, Repr

/-- Replace the worker record at index `i` by `f` applied to it. -/
def updateAt (f : WorkerRec → WorkerRec) : List WorkerRec → Nat → List WorkerRec
  | [], _ => []
  | w :: rest, 0 => f w :: rest
  | w :: rest, n + 1 => w :: updateAt f rest n

/-- Embedding of `StreamMonitor._load_config`: overwrite the four
configuration fields from the settings store. -/
def StreamMonitor.load_config (m : StreamMonitor) (c : Config) : StreamMonitor :=
  { m with enabled := c.enabled, stream_url := c.stream_url,
           offline_threshold := c.offline_threshold,
           reconnect_delay := c.reconnect_delay }

/-- Embedding of `StreamMonitor._resolve_stream_url` as a state
transformer, with the playlist fetch supplied by the oracle `fetch`. -/
def StreamMonitor.resolveUrl (m : StreamMonitor) (fetch : Option String) : StreamMonitor :=
  let r := resolve_stream_url fetch m.stream_url m.m3u_url
  { m with resolved_stream_url := r.1, m3u_url := r.2 }

/-- Embedding of `StreamMonitor._start_monitor_thread`: if the resolved
URL is falsy (`None` or empty) log a warning and return; otherwise
construct a fresh `StreamMonitorThread` (running, offline), point the
handle at it and start it. -/
def StreamMonitor.start_monitor_thread (m : StreamMonitor) : StreamMonitor :=
  if pyFalsyStrOpt m.resolved_stream_url then m
  else
    { m with workers := m.workers ++ [⟨true, false⟩],
             monitor_thread := some m.workers.length }

/-- Embedding of `StreamMonitor.start`: no-op when disabled or when no URL
is configured; otherwise resolve the URL and start the monitor thread. -/
def StreamMonitor.start (m : StreamMonitor) (fetch : Option String) : StreamMonitor :=
  if !m.enabled then m
  else if m.stream_url = "" then m
  else (m.resolveUrl fetch).start_monitor_thread

/-- Embedding of `StreamMonitor.stop`: if a handle is present, signal its
thread to stop (the thread's `run` loop then terminates, as `stop()` waits
for it) and release the handle; otherwise a no-op. -/
def StreamMonitor.stop (m : StreamMonitor) : StreamMonitor :=
  match m.monitor_thread with
  | none => m
  | some i =>
    { m with workers := updateAt (fun w => { w with running := false }) m.workers i,
             monitor_thread := none }

/-- Embedding of `StreamMonitor.restart`: `stop()`, reload the
configuration, reset `_resolved_stream_url`, then `start()` if still
enabled with a configured URL. -/
def StreamMonitor.restart (m : StreamMonitor) (c : Config) (fetch : Option String) :
    StreamMonitor :=
  let m1 := m.stop.load_config c
  let m2 := { m1 with resolved_stream_url := none }
  if m2.enabled && m2.stream_url ≠ "" then m2.start fetch else m2

/-- Embedding of `StreamMonitor.is_online`: delegate to the handle's
thread when present (a thread object is always truthy), else `False`. -/
def StreamMonitor.is_online (m : StreamMonitor) : Bool :=
  match m.monitor_thread with
  | some i =>
    match m.workers.get? i with
    | some w => w.is_online
    | none => false
  | none => false

/-- Embedding of `StreamMonitor.__init__` given the loaded configuration:
fields initialised, then, when enabled with a configured URL, immediate
resolution and thread start. -/
def initMonitor (c : Config) (fetch : Option String) : StreamMonitor :=
  let m : StreamMonitor :=
    { enabled := c.enabled, stream_url := c.stream_url,
      offline_threshold := c.offline_threshold,
      reconnect_delay := c.reconnect_delay,
      resolved_stream_url := none, m3u_url := none,
      monitor_thread := none, workers := [] }
  if m.enabled && m.stream_url ≠ "" then (m.resolveUrl fetch).start_monitor_thread
  else m

/-- A worker record at index `i` exists and is still running. -/
def workerRunningAt (m : StreamMonitor) (i : Nat) : Prop :=
  ∃ w, m.workers.get? i = some w ∧ w.running = true

/-- A running worker publishing its online flag (the worker thread is the
only writer of its `_is_online` field). -/
def StreamMonitor.publish (m : StreamMonitor) (i : Nat) (b : Bool) : StreamMonitor :=
  { m with workers := updateAt (fun w => { w with is_online := b }) m.workers i }

/-- One step of the coordinator's observable interface: a public call
(`start`, `stop`, `restart` with fresh oracle/configuration inputs) or a
running worker publishing its online state. -/
inductive Step : StreamMonitor → StreamMonitor → Prop
  | start (m : StreamMonitor) (fetch : Option String) : Step m (m.start fetch)
  | stop (m : StreamMonitor) : Step m m.stop
  | restart (m : StreamMonitor) (c : Config) (fetch : Option String) :
      Step m (m.restart c fetch)
  | publish (m : StreamMonitor) (i : Nat) (b : Bool) (h : workerRunningAt m i) :
      Step m (m.publish i b)

/-- States reachable from some constructor call through interface steps. -/
inductive Reachable : StreamMonitor → Prop
  | init (c : Config) (fetch : Option String) : Reachable (initMonitor c fetch)
  | step {m m' : StreamMonitor} : Reachable m → Step m m' → Reachable m'

/-- Number of workers of this coordinator whose `_running` flag is true. -/
def activeCount (m : StreamMonitor) : Nat :=
  (m.workers.filter (fun w => w.running)).length

/-- No leaked workers: every running worker is the one the handle points
at. -/
def noLeaked (m : StreamMonitor) : Prop :=
  ∀ i w, m.workers.get? i = some w → w.running = true → m.monitor_thread = some i

/-- The handle, when present, points at an existing, still-running
worker. -/
def handleInv (m : StreamMonitor) : Prop :=
  ∀ i, m.monitor_thread = some i → ∃ w, m.workers.get? i = some w ∧ w.running = true

/-- Resolution failure for a playlist URL: either the fetch raised, or the
body contains no non-blank, non-comment line. -/
def fetchResolutionFails : Option String → Prop
  | none => True
  | some body => scanLines (pySplitlines body) = none

/-- Modelled from the spec for comparison with `scanLines`: the spec's
words "skip blank lines and lines beginning with `#`; return the first
remaining line verbatim", reading "blank" as whitespace-only. The line is
returned exactly as it appears in the body, without stripping. -/
def specScanVerbatim : List String → Option String
  | [] => none
  | l :: rest =>
    if pyStrip l = "" then specScanVerbatim rest
    else if pyStartsWith l "#" then specScanVerbatim rest
    else some l

/-- A line the `.m3u` loop skips: blank after stripping, or a comment. -/
def skippedLine (l : String) : Prop :=
  pyStrip l = "" ∨ pyStartsWith (pyStrip l) "#" = true

end StreamMonitorModel

namespace StreamMonitorModel

/-! ### Helper lemmas -/

theorem updateAt_get?_ne (f : WorkerRec → WorkerRec) (ws : List WorkerRec) :
    ∀ i j : Nat, i ≠ j → (updateAt f ws j).get? i = ws.get? i := by
  induction ws with
  | nil => intro i j _; rfl
  | cons w rest ih =>
    intro i j hne
    cases j with
    | zero =>
      cases i with
      | zero => exact absurd rfl hne
      | succ i' => rfl
    | succ j' =>
      cases i with
      | zero => rfl
      | succ i' =>
        simp only [updateAt, List.get?]
        exact ih i' j' (fun h => hne (by rw [h]))

theorem updateAt_get?_eq (f : WorkerRec → WorkerRec) (ws : List WorkerRec) :
    ∀ j : Nat, (updateAt f ws j).get? j = (ws.get? j).map f := by
  induction ws with
  | nil => intro j; cases j <;> rfl
  | cons w rest ih =>
    intro j
    cases j with
    | zero => rfl
    | succ j' => exact ih j'

theorem readLoop_cases (θ : ℚ) (st : WorkerState) :
    ∀ (reads : List ReadItem) (last : ℚ) (e : ReadOutcome),
      readLoop θ st last reads e = .raised st ∨
      readLoop θ st last reads e = .returned {st with running := false} := by
  intro reads
  induction reads with
  | nil => intro last e; cases e <;> simp [readLoop]
  | cons item rest ih =>
    intro last e
    cases item with
    | chunk t => simpa only [readLoop] using ih t e
    | timeout t =>
      simp only [readLoop]
      by_cases h : t - last > θ
      · simp [h]
      · simpa only [if_neg h] using ih last e

theorem monitor_stream_evs (url : String) (θ : ℚ) (st : WorkerState) (cs : ConnScript) :
    (monitor_stream url θ st cs).2 = [] ∨
    (monitor_stream url θ st cs).2 = [StreamEvent.online] := by
  unfold monitor_stream
  by_cases h1 : url = "" <;> by_cases h2 : cs.opens <;>
    by_cases h3 : st.is_online <;> simp [h1, h2, h3]

theorem altB_runLoop (url : String) (θ : ℚ) :
    ∀ (scripts : List ConnScript) (st : WorkerState),
      altB st.is_online (runLoop url θ st scripts) = true := by
  intro scripts
  induction scripts with
  | nil => intro st; cases st.is_online <;> rfl
  | cons cs rest ih =>
    intro st
    obtain ⟨r, o⟩ := st
    cases r with
    | false => cases o <;> simp [runLoop, altB]
    | true =>
      cases hsbi : cs.stopBeforeIter with
      | true => cases o <;> simp [runLoop, hsbi, altB]
      | false =>
        by_cases hurl : url = ""
        · have hms : monitor_stream url θ ⟨true, o⟩ cs = (.raised ⟨true, o⟩, []) := by
            unfold monitor_stream; simp [hurl]
          simp only [runLoop, hsbi, Bool.not_true, Bool.or_false, if_neg, hms]
          cases hsbh : cs.stopBeforeHandle <;> cases o <;>
            simp [altB, hsbh] <;> simpa using ih ⟨true, false⟩
        · cases hopens : cs.opens with
          | false =>
            have hms : monitor_stream url θ ⟨true, o⟩ cs = (.raised ⟨true, o⟩, []) := by
              unfold monitor_stream; simp [hurl, hopens]
            simp only [runLoop, hsbi, Bool.not_true, Bool.or_false, if_neg, hms]
            cases hsbh : cs.stopBeforeHandle <;> cases o <;>
              simp [altB, hsbh] <;> simpa using ih ⟨true, false⟩
          | true =>
            cases o with
            | true =>
              have hms : monitor_stream url θ ⟨true, true⟩ cs
                  = (readLoop θ ⟨true, true⟩ cs.openTime cs.reads cs.ending, []) := by
                unfold monitor_stream; simp [hurl, hopens]
              rcases readLoop_cases θ ⟨true, true⟩ cs.reads cs.openTime cs.ending with hrl | hrl
              · simp only [runLoop, hsbi, hms, hrl]
                cases hsbh : cs.stopBeforeHandle <;> simp [altB, hsbh]
                all_goals simpa using ih ⟨true, false⟩
              · simp only [runLoop, hsbi, hms, hrl]
                simp [altB]
            | false =>
              have hms : monitor_stream url θ ⟨true, false⟩ cs
                  = (readLoop θ ⟨true, true⟩ cs.openTime cs.reads cs.ending,
                     [StreamEvent.online]) := by
                unfold monitor_stream; simp [hurl, hopens]
              rcases readLoop_cases θ ⟨true, true⟩ cs.reads cs.openTime cs.ending with hrl | hrl
              · simp only [runLoop, hsbi, hms, hrl]
                cases hsbh : cs.stopBeforeHandle <;> simp [altB, hsbh]
                all_goals simpa using ih ⟨true, false⟩
              · simp only [runLoop, hsbi, hms, hrl]
                simp [altB]

/-! ### Claim C1 -/

/-- C1: for every scripted execution of the worker, the emitted events
strictly alternate starting with online (online only from the OFFLINE
state, offline only from the ONLINE state); and for a worker whose
connection opens and whose reads yield one non-empty chunk followed by an
empty chunk, the trace is exactly one online event then one offline
event. -/
theorem c1_events_alternate :
    (∀ (url : String) (θ : ℚ) (scripts : List ConnScript),
      altB false (runLoop url θ initWorkerState scripts) = true) ∧
    runLoop "http://host/live" 10 initWorkerState
      [⟨false, true, 0, [ReadItem.chunk 1], ReadOutcome.emptyRead, false⟩]
      = [StreamEvent.online, StreamEvent.offline] := by
  constructor
  · intro url θ scripts
    simpa using altB_runLoop url θ scripts initWorkerState
  · decide

/-! ### Claim C2 -/

/-- C2: on a read timeout while connected, the worker raises (treats the
connection as failed) exactly when `now - last_data_time` strictly exceeds
the offline threshold, continues reading unchanged when it does not;
`last_data_time` is set to the chunk time on each non-empty chunk and to
the open time on connection open; and in a full run with threshold 10, a
timeout after 11 seconds of silence yields an offline event while one
after 10 seconds (elapsed equal to the threshold) yields none. -/
theorem c2_timeout_threshold (θ last t : ℚ) (st : WorkerState)
    (rest : List ReadItem) (e : ReadOutcome) :
    (t - last > θ →
      readLoop θ st last (ReadItem.timeout t :: rest) e = .raised st) ∧
    (t - last ≤ θ →
      readLoop θ st last (ReadItem.timeout t :: rest) e = readLoop θ st last rest e) ∧
    readLoop θ st last (ReadItem.chunk t :: rest) e = readLoop θ st t rest e ∧
    (∀ (url : String) (cs : ConnScript), url ≠ "" → cs.opens = true →
      (monitor_stream url θ st cs).1
        = readLoop θ (if st.is_online then st else {st with is_online := true})
            cs.openTime cs.reads cs.ending) ∧
    runLoop "u" 10 initWorkerState
      [⟨false, true, 0, [ReadItem.timeout 11], ReadOutcome.stopped, false⟩]
      = [StreamEvent.online, StreamEvent.offline] ∧
    runLoop "u" 10 initWorkerState
      [⟨false, true, 0, [ReadItem.timeout 10], ReadOutcome.stopped, false⟩]
      = [StreamEvent.online] := by
  refine ⟨?_, ?_, rfl, ?_, ?_, ?_⟩
  · intro h
    simp [readLoop, h]
  · intro h
    simp [readLoop, not_lt.mpr h]
  · intro url cs hurl hopens
    unfold monitor_stream
    by_cases ho : st.is_online <;> simp [hurl, hopens, ho]
  · norm_num [runLoop, monitor_stream, readLoop, initWorkerState]
    rw [if_neg (by decide : ¬("u" : String) = "")]
    rfl
  · norm_num [runLoop, monitor_stream, readLoop, initWorkerState]
    rw [if_neg (by decide : ¬("u" : String) = "")]

/-- C2, witness: silence of 11 seconds against a threshold of 10 with
`last_data_time = 0` raises immediately. -/
theorem c2_timeout_threshold_witness :
    readLoop 10 ⟨true, true⟩ 0 [ReadItem.timeout 11] ReadOutcome.stopped
      = .raised ⟨true, true⟩ :=
  (c2_timeout_threshold 10 0 11 ⟨true, true⟩ [] ReadOutcome.stopped).1 (by norm_num)

/-! ### Claim C3 -/

/-- C3: a stop request produces no offline event — if the running flag is
false when a connection failure is handled, the `run` loop exits emitting
nothing beyond what the failed attempt already emitted (never an offline
event); the reconnect wait loop checks the flag each 100ms iteration, so
once the flag is false from check `k` onward at most `k` sleeps run in
total (a stop is observed within one polling interval); and a stop
observed at the head of the `run` loop ends the trace with no further
events. -/
theorem c3_stop_no_events :
    (∀ (url : String) (θ : ℚ) (st : WorkerState) (cs : ConnScript)
        (rest : List ConnScript) (st1 : WorkerState) (evs : List StreamEvent),
      st.running = true → cs.stopBeforeIter = false → cs.stopBeforeHandle = true →
      monitor_stream url θ st cs = (.raised st1, evs) →
      runLoop url θ st (cs :: rest) = evs ∧ StreamEvent.offline ∉ evs) ∧
    (∀ (running : Nat → Bool) (seconds k : Nat),
      (∀ i, k ≤ i → running i = false) → sleep_with_check running seconds ≤ k) ∧
    (∀ (url : String) (θ : ℚ) (st : WorkerState) (cs : ConnScript)
        (rest : List ConnScript),
      cs.stopBeforeIter = true → runLoop url θ st (cs :: rest) = []) := by
  refine ⟨?_, ?_, ?_⟩
  · intro url θ st cs rest st1 evs hr hsbi hsbh hms
    constructor
    · simp only [runLoop, hr, hsbi, Bool.not_true, Bool.or_false, if_neg, hms, hsbh]
      simp
    · rcases monitor_stream_evs url θ st cs with h | h <;> rw [hms] at h <;>
        simp at h <;> simp [h]
  · intro running seconds k hk
    have hgo : ∀ (fuel j : Nat), sleepGo running j fuel ≤ k - j := by
      intro fuel
      induction fuel with
      | zero => intro j; simp [sleepGo]
      | succ f ih =>
        intro j
        unfold sleepGo
        by_cases hj : running j = true
        · have hjk : j < k := by
            by_contra hge
            rw [hk j (Nat.le_of_not_lt hge)] at hj
            exact Bool.false_ne_true hj
          simp only [hj, Bool.not_true, Bool.false_eq_true, if_false]
          have := ih (j + 1)
          omega
        · have hjf : running j = false := by
            cases hcase : running j
            · rfl
            · exact absurd hcase hj
          simp [hjf]
    simpa using hgo (seconds * 10) 0
  · intro url θ st cs rest h
    simp [runLoop, h]

/-- C3, witness: with the running flag already false, a 5-second reconnect
wait performs zero sleeps. -/
theorem c3_stop_no_events_witness :
    sleep_with_check (fun _ => false) 5 ≤ 0 :=
  c3_stop_no_events.2.1 (fun _ => false) 5 0 (fun _ _ => rfl)

/-! ### Claim C4 -/

/-- C4, counterexample: the configured URL `" http://x"` is non-empty and
does not end (case-insensitively) in `.m3u`, yet `_resolve_stream_url`
does not return it unchanged — it returns the whitespace-stripped
`"http://x"`, so `resolve(url) == url` fails. -/
theorem c4_counterexample :
    (" http://x" : String) ≠ "" ∧ isM3u " http://x" = false ∧
    (resolve_stream_url none " http://x" none).1 ≠ some " http://x" ∧
    (resolve_stream_url none " http://x" none).1 = some "http://x" := by
  decide

/-- C4, amended: for every non-empty configured URL whose whitespace-stripped
form does not end (case-insensitively) in `.m3u`, `_resolve_stream_url`
returns the stripped URL (and clears the playlist field); in particular,
resolution is the identity exactly on URLs without surrounding
whitespace. -/
theorem c4_resolve_returns_stripped (url : String) (fetch m3u_old : Option String)
    (h1 : url ≠ "") (h2 : isM3u (pyStrip url) = false) :
    resolve_stream_url fetch url m3u_old = (some (pyStrip url), none) ∧
    (pyStrip url = url → (resolve_stream_url fetch url m3u_old).1 = some url) := by
  have hmain : resolve_stream_url fetch url m3u_old = (some (pyStrip url), none) := by
    unfold resolve_stream_url
    simp [h1, h2]
  exact ⟨hmain, fun hid => by rw [hmain, hid]⟩

/-- C4, witness: the amended theorem applied to the direct stream URL
`"http://a"`. -/
theorem c4_resolve_returns_stripped_witness :
    resolve_stream_url none "http://a" none = (some (pyStrip "http://a"), none) :=
  (c4_resolve_returns_stripped "http://a" none none (by decide) (by decide)).1

/-! ### Claim C5 -/

theorem scanLines_of_all_skipped (ls : List String)
    (h : ∀ l ∈ ls, skippedLine l) : scanLines ls = none := by
  induction ls with
  | nil => rfl
  | cons l rest ih =>
    have hl := h l (List.mem_cons_self l rest)
    have hrest : ∀ p ∈ rest, skippedLine p := fun p hp => h p (List.mem_cons_of_mem l hp)
    unfold scanLines
    rcases hl with hb | hc
    · simp [hb, ih hrest]
    · by_cases hb : pyStrip l = ""
      · simp [hb, ih hrest]
      · simp [hb, hc, ih hrest]

theorem scanLines_eq_some (ls : List String) (v : String)
    (h : scanLines ls = some v) :
    ∃ pre l suf, ls = pre ++ l :: suf ∧ (∀ p ∈ pre, skippedLine p) ∧
      pyStrip l = v ∧ v ≠ "" ∧ pyStartsWith v "#" = false := by
  induction ls with
  | nil => simp [scanLines] at h
  | cons l rest ih =>
    unfold scanLines at h
    by_cases hb : pyStrip l = ""
    · rw [if_pos hb] at h
      obtain ⟨pre, l', suf, hsplit, hskip, hstrip, hne, hhash⟩ := ih h
      refine ⟨l :: pre, l', suf, by rw [hsplit]; rfl, ?_, hstrip, hne, hhash⟩
      intro p hp
      rcases List.mem_cons.mp hp with hpl | hpp
      · rw [hpl]; exact Or.inl hb
      · exact hskip p hpp
    · rw [if_neg hb] at h
      by_cases hc : pyStartsWith (pyStrip l) "#" = true
      · rw [if_pos hc] at h
        obtain ⟨pre, l', suf, hsplit, hskip, hstrip, hne, hhash⟩ := ih h
        refine ⟨l :: pre, l', suf, by rw [hsplit]; rfl, ?_, hstrip, hne, hhash⟩
        intro p hp
        rcases List.mem_cons.mp hp with hpl | hpp
        · rw [hpl]; exact Or.inr hc
        · exact hskip p hpp
      · rw [if_neg hc] at h
        have hv : pyStrip l = v := Option.some.inj h
        refine ⟨[], l, rest, rfl, ?_, hv, ?_, ?_⟩
        · intro p hp; cases hp
        · rw [← hv]; exact hb
        · rw [← hv]; simpa using hc

/-- C5, counterexample: for the playlist body `"#c\n url \n"` the first
non-blank, non-comment line is `" url "`; the spec's verbatim scan returns
it unchanged, but the code strips it and returns `"url"`, so resolution
does not return the line verbatim. -/
theorem c5_counterexample :
    specScanVerbatim (pySplitlines "#c\n url \n") = some " url " ∧
    (resolve_stream_url (some "#c\n url \n") "http://h/p.m3u" none).1 = some "url" ∧
    (resolve_stream_url (some "#c\n url \n") "http://h/p.m3u" none).1 ≠ some " url " := by
  decide

/-- C5, amended: for a playlist URL whose fetch succeeds with body `B`, the
resolver scans the lines of `B` in order, skipping lines that are blank
after stripping or whose stripped form begins with `#`, and returns the
first surviving line in whitespace-stripped form; if every line of `B` is
blank or a comment, or the fetch fails, it returns none. -/
theorem c5_playlist_scan (url body : String) (m3u_old : Option String)
    (h1 : url ≠ "") (h2 : isM3u (pyStrip url) = true) :
    (resolve_stream_url (some body) url m3u_old).1 = scanLines (pySplitlines body) ∧
    (∀ v, scanLines (pySplitlines body) = some v →
      ∃ pre l suf, pySplitlines body = pre ++ l :: suf ∧
        (∀ p ∈ pre, skippedLine p) ∧
        pyStrip l = v ∧ v ≠ "" ∧ pyStartsWith v "#" = false) ∧
    ((∀ l ∈ pySplitlines body, skippedLine l) →
      (resolve_stream_url (some body) url m3u_old).1 = none) ∧
    (resolve_stream_url none url m3u_old).1 = none := by
  have hmain : (resolve_stream_url (some body) url m3u_old).1
      = scanLines (pySplitlines body) := by
    unfold resolve_stream_url
    simp [h1, h2]
  refine ⟨hmain, fun v hv => scanLines_eq_some _ v hv, ?_, ?_⟩
  · intro hall
    rw [hmain, scanLines_of_all_skipped _ hall]
  · unfold resolve_stream_url
    simp [h1, h2]

/-- C5, witness: the spec's own scenario, a playlist
`"#EXTM3U\n#EXTINF:-1,Title\nhttp://host/live\n"` fetched for
`"http://host/live.m3u"`. -/
theorem c5_playlist_scan_witness :
    (resolve_stream_url (some "#EXTM3U\n#EXTINF:-1,Title\nhttp://host/live\n")
        "http://host/live.m3u" none).1
      = scanLines (pySplitlines "#EXTM3U\n#EXTINF:-1,Title\nhttp://host/live\n") :=
  (c5_playlist_scan "http://host/live.m3u" "#EXTM3U\n#EXTINF:-1,Title\nhttp://host/live\n"
    none (by decide) (by decide)).1

/-! ### Claim C8 -/

/-- C8: when the configured URL is a playlist reference and resolution
fails (fetch raised, or no usable line in the body), `start` neither
constructs nor starts a worker: the worker list and the handle are
untouched, the resolved URL is left absent (with the playlist URL
recorded), and the configuration fields are unchanged. The model has no
timed retry step, so resolution can only run again through a later
`start`/`restart` call; no controller call is made (controller calls occur
only in the online/offline event handlers). -/
theorem c8_playlist_failure_no_start (m : StreamMonitor) (fetch : Option String)
    (he : m.enabled = true) (hu : m.stream_url ≠ "")
    (hm : isM3u (pyStrip m.stream_url) = true)
    (hf : fetchResolutionFails fetch) :
    (m.start fetch).workers = m.workers ∧
    (m.start fetch).monitor_thread = m.monitor_thread ∧
    (m.start fetch).resolved_stream_url = none ∧
    (m.start fetch).m3u_url = some (pyStrip m.stream_url) ∧
    (m.start fetch).enabled = m.enabled ∧
    (m.start fetch).stream_url = m.stream_url ∧
    (m.start fetch).offline_threshold = m.offline_threshold ∧
    (m.start fetch).reconnect_delay = m.reconnect_delay := by
  have hres : resolve_stream_url fetch m.stream_url m.m3u_url
      = (none, some (pyStrip m.stream_url)) := by
    unfold resolve_stream_url
    rw [if_neg hu]
    simp only [hm, if_true]
    cases fetch with
    | none => simp
    | some body =>
      have hb : scanLines (pySplitlines body) = none := hf
      simp [hb]
  unfold StreamMonitor.start StreamMonitor.start_monitor_thread StreamMonitor.resolveUrl
  simp [he, hu, hres, pyFalsyStrOpt]

/-- C8, witness: a coordinator configured with the playlist URL
`"http://h/p.m3u"` whose fetch raises. -/
theorem c8_playlist_failure_no_start_witness :
    ((initMonitor ⟨true, "http://h/p.m3u", 10, 5⟩ none).start none).workers
        = (initMonitor ⟨true, "http://h/p.m3u", 10, 5⟩ none).workers ∧
    ((initMonitor ⟨true, "http://h/p.m3u", 10, 5⟩ none).start none).monitor_thread
        = (initMonitor ⟨true, "http://h/p.m3u", 10, 5⟩ none).monitor_thread ∧
    ((initMonitor ⟨true, "http://h/p.m3u", 10, 5⟩ none).start none).resolved_stream_url
        = none ∧
    ((initMonitor ⟨true, "http://h/p.m3u", 10, 5⟩ none).start none).m3u_url
        = some (pyStrip (initMonitor ⟨true, "http://h/p.m3u", 10, 5⟩ none).stream_url) ∧
    ((initMonitor ⟨true, "http://h/p.m3u", 10, 5⟩ none).start none).enabled
        = (initMonitor ⟨true, "http://h/p.m3u", 10, 5⟩ none).enabled ∧
    ((initMonitor ⟨true, "http://h/p.m3u", 10, 5⟩ none).start none).stream_url
        = (initMonitor ⟨true, "http://h/p.m3u", 10, 5⟩ none).stream_url ∧
    ((initMonitor ⟨true, "http://h/p.m3u", 10, 5⟩ none).start none).offline_threshold
        = (initMonitor ⟨true, "http://h/p.m3u", 10, 5⟩ none).offline_threshold ∧
    ((initMonitor ⟨true, "http://h/p.m3u", 10, 5⟩ none).start none).reconnect_delay
        = (initMonitor ⟨true, "http://h/p.m3u", 10, 5⟩ none).reconnect_delay :=
  c8_playlist_failure_no_start (initMonitor ⟨true, "http://h/p.m3u", 10, 5⟩ none) none
    (by decide) (by decide) (by decide) trivial

/-! ### Claim C10 -/

/-- C10: a configured URL of only whitespace is truthy, so it passes the
missing-URL guard of `start`; resolution strips it to the empty string and
stores `some ""` (not `None`); the empty resolved URL is falsy, so
`_start_monitor_thread` returns without constructing a worker: `start`
leaves the worker list and the handle unchanged. -/
theorem c10_whitespace_url (url : String) (fetch m3u_old : Option String)
    (h1 : url ≠ "") (h2 : pyStrip url = "") :
    (resolve_stream_url fetch url m3u_old).1 = some "" ∧
    (∀ m : StreamMonitor, m.stream_url = url → m.enabled = true →
      (m.start fetch).workers = m.workers ∧
      (m.start fetch).monitor_thread = m.monitor_thread) := by
  have hres : ∀ X, resolve_stream_url fetch url X = (some "", none) := by
    intro X
    unfold resolve_stream_url
    rw [if_neg h1]
    simp only [h2]
    have him : isM3u "" = false := by decide
    simp [him]
  refine ⟨by rw [hres m3u_old], ?_⟩
  intro m hurl hen
  unfold StreamMonitor.start StreamMonitor.start_monitor_thread StreamMonitor.resolveUrl
  simp [hen, hurl, h1, hres, pyFalsyStrOpt]

/-- C10, witness: the whitespace URL `" "` at a coordinator whose
configured URL is `" "`. -/
theorem c10_whitespace_url_witness :
    (resolve_stream_url none " " none).1 = some "" ∧
    ((initMonitor ⟨true, " ", 10, 5⟩ none).start none).workers
        = (initMonitor ⟨true, " ", 10, 5⟩ none).workers ∧
    ((initMonitor ⟨true, " ", 10, 5⟩ none).start none).monitor_thread
        = (initMonitor ⟨true, " ", 10, 5⟩ none).monitor_thread := by
  have h := c10_whitespace_url " " none none (by decide) (by decide)
  exact ⟨h.1, h.2 (initMonitor ⟨true, " ", 10, 5⟩ none) (by decide) (by decide)⟩

/-! ### Coordinator invariants -/

theorem handleInv_start_monitor_thread (m : StreamMonitor) (h : handleInv m) :
    handleInv m.start_monitor_thread := by
  unfold StreamMonitor.start_monitor_thread
  by_cases hf : pyFalsyStrOpt m.resolved_stream_url = true
  · simpa [hf] using h
  · intro i hi
    simp only [hf, if_false, Bool.false_eq_true] at hi ⊢
    have hieq : i = m.workers.length := by
      simpa using hi.symm
    subst hieq
    exact ⟨⟨true, false⟩, List.get?_concat_length m.workers _, rfl⟩

theorem handleInv_resolveUrl (m : StreamMonitor) (f : Option String) (h : handleInv m) :
    handleInv (m.resolveUrl f) := by
  intro i hi
  exact h i hi

theorem handleInv_start (m : StreamMonitor) (f : Option String) (h : handleInv m) :
    handleInv (m.start f) := by
  unfold StreamMonitor.start
  by_cases h1 : m.enabled = true
  · by_cases h2 : m.stream_url = ""
    · simpa [h1, h2] using h
    · simpa [h1, h2] using
        handleInv_start_monitor_thread (m.resolveUrl f) (handleInv_resolveUrl m f h)
  · have h1' : m.enabled = false := by
      cases hcase : m.enabled
      · rfl
      · exact absurd hcase h1
    simpa [h1'] using h

theorem handleInv_stop (m : StreamMonitor) : handleInv m.stop := by
  unfold StreamMonitor.stop
  cases hmt : m.monitor_thread with
  | none =>
    intro i hi
    rw [hmt] at hi
    cases hi
  | some j =>
    intro i hi
    cases hi

theorem handleInv_restart (m : StreamMonitor) (c : Config) (f : Option String) :
    handleInv (m.restart c f) := by
  have hbase : handleInv { m.stop.load_config c with resolved_stream_url := none } :=
    fun i hi => handleInv_stop m i hi
  unfold StreamMonitor.restart
  dsimp only
  split
  · exact handleInv_start _ f hbase
  · exact hbase

theorem handleInv_publish (m : StreamMonitor) (i : Nat) (b : Bool) (h : handleInv m) :
    handleInv (m.publish i b) := by
  intro j hj
  obtain ⟨w, hw, hr⟩ := h j hj
  by_cases hij : j = i
  · subst hij
    refine ⟨{ w with is_online := b }, ?_, hr⟩
    show (updateAt _ m.workers j).get? j = _
    rw [updateAt_get?_eq, hw]
    rfl
  · refine ⟨w, ?_, hr⟩
    show (updateAt _ m.workers i).get? j = _
    rw [updateAt_get?_ne _ _ j i hij, hw]

theorem handleInv_init (c : Config) (f : Option String) : handleInv (initMonitor c f) := by
  unfold initMonitor
  dsimp only
  split
  · exact handleInv_start_monitor_thread _
      (handleInv_resolveUrl _ f (fun i hi => Option.noConfusion hi))
  · exact fun i hi => Option.noConfusion hi

theorem handleInv_reachable (m : StreamMonitor) (h : Reachable m) : handleInv m := by
  induction h with
  | init c f => exact handleInv_init c f
  | step hr hs ih =>
    cases hs with
    | start f => exact handleInv_start _ f ih
    | stop => exact handleInv_stop _
    | restart c f => exact handleInv_restart _ c f
    | publish i b hw => exact handleInv_publish _ i b ih

theorem start_workers_get? (m : StreamMonitor) (f : Option String) (i : Nat) (w : WorkerRec)
    (hg : m.workers.get? i = some w) : (m.start f).workers.get? i = some w := by
  unfold StreamMonitor.start
  split
  · exact hg
  · split
    · exact hg
    · unfold StreamMonitor.start_monitor_thread
      split
      · exact hg
      · have hlt : i < (m.resolveUrl f).workers.length := (List.get?_eq_some.mp hg).1
        show ((m.resolveUrl f).workers ++ [WorkerRec.mk true false]).get? i = some w
        rw [List.get?_append hlt]
        exact hg

theorem stop_workers_get? (m : StreamMonitor) (i : Nat) (w : WorkerRec)
    (hne : m.monitor_thread ≠ some i) (hg : m.workers.get? i = some w) :
    m.stop.workers.get? i = some w := by
  cases hmt : m.monitor_thread with
  | none => simpa [StreamMonitor.stop, hmt] using hg
  | some j =>
    have hij : i ≠ j := fun h => hne (by rw [hmt, h])
    simp only [StreamMonitor.stop, hmt]
    rw [updateAt_get?_ne _ _ i j hij]
    exact hg

theorem step_preserves_leaked {m m₂ : StreamMonitor} (hs : Step m m₂) (i : Nat) (w : WorkerRec)
    (hne : m.monitor_thread ≠ some i) (hg : m.workers.get? i = some w)
    (hr : w.running = true) :
    ∃ w', m₂.workers.get? i = some w' ∧ w'.running = true := by
  cases hs with
  | start f => exact ⟨w, start_workers_get? m f i w hg, hr⟩
  | stop => exact ⟨w, stop_workers_get? m i w hne hg, hr⟩
  | restart c f =>
    have h1 : m.stop.workers.get? i = some w := stop_workers_get? m i w hne hg
    unfold StreamMonitor.restart
    dsimp only
    split
    · exact ⟨w, start_workers_get? _ f i w h1, hr⟩
    · exact ⟨w, h1, hr⟩
  | publish i' b hw =>
    by_cases hii : i = i'
    · subst hii
      refine ⟨{ w with is_online := b }, ?_, hr⟩
      show (updateAt _ m.workers i).get? i = _
      rw [updateAt_get?_eq, hg]
      rfl
    · refine ⟨w, ?_, hr⟩
      show (updateAt _ m.workers i').get? i = _
      rw [updateAt_get?_ne _ _ i i' hii]
      exact hg

theorem filterRunning_nil (ws : List WorkerRec) (h : ∀ w ∈ ws, w.running = false) :
    ws.filter (fun w => w.running) = [] := by
  rw [List.filter_eq_nil_iff]
  intro a ha
  simp [h a ha]

theorem activeCount_stop_zero (m : StreamMonitor) (h : noLeaked m) :
    activeCount m.stop = 0 := by
  unfold activeCount
  have hall : ∀ w' ∈ m.stop.workers, w'.running = false := by
    intro w' hw'
    obtain ⟨n, hn⟩ := List.mem_iff_get?.mp hw'
    cases hmt : m.monitor_thread with
    | none =>
      have hn' : m.workers.get? n = some w' := by
        simpa [StreamMonitor.stop, hmt] using hn
      cases hcase : w'.running with
      | false => rfl
      | true =>
        have hcontra := h n w' hn' hcase
        rw [hmt] at hcontra
        cases hcontra
    | some j =>
      have hn' : (updateAt (fun w => { w with running := false }) m.workers j).get? n
          = some w' := by
        simpa [StreamMonitor.stop, hmt] using hn
      by_cases hnj : n = j
      · subst hnj
        rw [updateAt_get?_eq] at hn'
        cases hg : m.workers.get? n with
        | none => rw [hg] at hn'; cases hn'
        | some w0 =>
          rw [hg] at hn'
          have hw0 : ({ w0 with running := false } : WorkerRec) = w' := by
            simpa using hn'
          rw [← hw0]
      · rw [updateAt_get?_ne _ _ n j hnj] at hn'
        cases hcase : w'.running with
        | false => rfl
        | true =>
          have hcontra := h n w' hn' hcase
          rw [hmt] at hcontra
          exact absurd (Option.some.inj hcontra).symm hnj
  rw [filterRunning_nil _ hall]
  rfl

theorem activeCount_start_le (m : StreamMonitor) (f : Option String) :
    activeCount (m.start f) ≤ activeCount m + 1 := by
  unfold StreamMonitor.start
  split
  · exact Nat.le_succ _
  · split
    · exact Nat.le_succ _
    · unfold StreamMonitor.start_monitor_thread
      split
      · exact Nat.le_succ _
      · show (((m.resolveUrl f).workers ++ [WorkerRec.mk true false]).filter
            (fun w => w.running)).length ≤ activeCount m + 1
        rw [List.filter_append, List.length_append]
        exact le_rfl

/-! ### Claim C6 -/

/-- C6, counterexample: the coordinator state reached by constructing with
an enabled direct-URL configuration (which starts a first worker) and then
calling `start` (which overwrites the handle, leaking the first worker) is
reachable, yet after `restart` two workers are still running: the claim's
"at most one active worker after restart, no prior worker still running"
fails. -/
theorem c6_counterexample :
    Reachable ((initMonitor ⟨true, "http://x", 10, 5⟩ none).start none) ∧
    ¬ activeCount (((initMonitor ⟨true, "http://x", 10, 5⟩ none).start none).restart
        ⟨true, "http://x", 10, 5⟩ none) ≤ 1 ∧
    activeCount (((initMonitor ⟨true, "http://x", 10, 5⟩ none).start none).restart
        ⟨true, "http://x", 10, 5⟩ none) = 2 := by
  refine ⟨Reachable.step (Reachable.init ⟨true, "http://x", 10, 5⟩ none)
      (Step.start _ none), by decide, by decide⟩

/-- C6, amended: `restart` performs `stop`, reloads the configuration,
resets the resolved URL, then `start`s only when still enabled with a
configured URL; in any state with no leaked workers (every running worker
is the one the handle points at — in particular any state in which `start`
was never called while a handle was present), at most one active worker
exists after `restart` returns. -/
theorem c6_restart_at_most_one (m : StreamMonitor) (c : Config) (f : Option String)
    (h : noLeaked m) : activeCount (m.restart c f) ≤ 1 := by
  unfold StreamMonitor.restart
  dsimp only
  split
  · calc activeCount ({ m.stop.load_config c with resolved_stream_url := none }.start f)
        ≤ activeCount { m.stop.load_config c with resolved_stream_url := none } + 1 :=
          activeCount_start_le _ f
      _ = activeCount m.stop + 1 := rfl
      _ = 1 := by rw [activeCount_stop_zero m h]
  · calc activeCount { m.stop.load_config c with resolved_stream_url := none }
        = activeCount m.stop := rfl
      _ = 0 := activeCount_stop_zero m h
      _ ≤ 1 := Nat.zero_le 1

/-- C6, witness: restarting the freshly constructed coordinator (one
worker, pointed at by the handle, so nothing is leaked). -/
theorem c6_restart_at_most_one_witness :
    activeCount ((initMonitor ⟨true, "http://x", 10, 5⟩ none).restart
        ⟨true, "http://x", 10, 5⟩ none) ≤ 1 := by
  apply c6_restart_at_most_one
  intro i w hg hr
  have hm : initMonitor ⟨true, "http://x", 10, 5⟩ none
      = ⟨true, "http://x", 10, 5, some "http://x", none, some 0, [⟨true, false⟩]⟩ := by
    decide
  rw [hm] at hg ⊢
  cases i with
  | zero => rfl
  | succ n =>
    have : ([⟨true, false⟩] : List WorkerRec).get? (n + 1) = none := by
      cases n <;> rfl
    rw [this] at hg
    cases hg

/-! ### Claim C7 -/

/-- C7, counterexample: in the reachable state obtained by constructing an
enabled coordinator (first worker), calling `start` (second worker, handle
overwritten) and then `stop`, the handle is absent while the first,
leaked worker is still active — so "the handle is present iff a worker is
currently active" fails; `is_online` nevertheless reports false there. -/
theorem c7_counterexample :
    Reachable (((initMonitor ⟨true, "http://x", 10, 5⟩ none).start none).stop) ∧
    (((initMonitor ⟨true, "http://x", 10, 5⟩ none).start none).stop).monitor_thread
        = none ∧
    (((initMonitor ⟨true, "http://x", 10, 5⟩ none).start none).stop).workers.any
        (fun w => w.running) = true := by
  refine ⟨Reachable.step (Reachable.step (Reachable.init ⟨true, "http://x", 10, 5⟩ none)
      (Step.start _ none)) (Step.stop _), by decide, by decide⟩

/-- C7, amended: in every reachable coordinator state, a present handle
points at an existing, still-running worker (the forward half of the
claimed iff; the converse fails only for leaked workers); `is_online`
returns the handle worker's last published online state when the handle is
present and false when it is absent, and immediately after `stop` it
returns false. -/
theorem c7_handle_and_is_online (m : StreamMonitor) (h : Reachable m) :
    (∀ i, m.monitor_thread = some i →
      ∃ w, m.workers.get? i = some w ∧ w.running = true) ∧
    (∀ i w, m.monitor_thread = some i → m.workers.get? i = some w →
      m.is_online = w.is_online) ∧
    (m.monitor_thread = none → m.is_online = false) ∧
    m.stop.is_online = false := by
  refine ⟨handleInv_reachable m h, ?_, ?_, ?_⟩
  · intro i w hi hw
    have hw' : m.workers[i]? = some w := by simpa using hw
    simp [StreamMonitor.is_online, hi, hw']
  · intro hn
    simp [StreamMonitor.is_online, hn]
  · cases hmt : m.monitor_thread <;>
      simp [StreamMonitor.stop, StreamMonitor.is_online, hmt]

/-- C7, witness: the invariant instantiated at a freshly constructed,
disabled coordinator. -/
theorem c7_handle_and_is_online_witness :
    ((initMonitor ⟨false, "", 10, 5⟩ none).stop).is_online = false :=
  (c7_handle_and_is_online (initMonitor ⟨false, "", 10, 5⟩ none)
    (Reachable.init ⟨false, "", 10, 5⟩ none)).2.2.2

/-! ### Claim C9 -/

/-- C9: calling `start` while a worker handle is present (and the URL
resolves to a usable value) does not signal, stop or wait on the existing
worker: it appends a newly constructed worker and repoints the handle at
it, leaving every prior worker record — including the one the old handle
pointed at, with its running flag and online state — unchanged; and the
now-unreachable old worker stays running across every further coordinator
step (`start`, `stop`, `restart`, or a worker publishing), so the
coordinator has no remaining way to stop it. -/
theorem c9_start_overwrites_handle (m : StreamMonitor) (fetch : Option String)
    (i : Nat) (w : WorkerRec)
    (hh : m.monitor_thread = some i)
    (he : m.enabled = true) (hu : m.stream_url ≠ "")
    (hr : pyFalsyStrOpt (resolve_stream_url fetch m.stream_url m.m3u_url).1 = false)
    (hg : m.workers.get? i = some w) :
    (m.start fetch).workers = m.workers ++ [⟨true, false⟩] ∧
    (m.start fetch).monitor_thread = some m.workers.length ∧
    (m.start fetch).workers.get? i = some w ∧
    (w.running = true → ∀ m₂, Step (m.start fetch) m₂ →
      ∃ w', m₂.workers.get? i = some w' ∧ w'.running = true) := by
  have hstart : m.start fetch = (m.resolveUrl fetch).start_monitor_thread := by
    unfold StreamMonitor.start
    simp [he, hu]
  have hfalsy : pyFalsyStrOpt (m.resolveUrl fetch).resolved_stream_url = false := hr
  have hsm : (m.resolveUrl fetch).start_monitor_thread
      = { m.resolveUrl fetch with
          workers := (m.resolveUrl fetch).workers ++ [⟨true, false⟩],
          monitor_thread := some (m.resolveUrl fetch).workers.length } := by
    unfold StreamMonitor.start_monitor_thread
    rw [hfalsy]
    simp
  have h1 : (m.start fetch).workers = m.workers ++ [⟨true, false⟩] := by
    rw [hstart, hsm]
    rfl
  have h2 : (m.start fetch).monitor_thread = some m.workers.length := by
    rw [hstart, hsm]
    rfl
  have hlt : i < m.workers.length := (List.get?_eq_some.mp hg).1
  have h3 : (m.start fetch).workers.get? i = some w := by
    rw [h1, List.get?_append hlt]
    exact hg
  refine ⟨h1, h2, h3, ?_⟩
  intro hwr m₂ hs
  have hne : (m.start fetch).monitor_thread ≠ some i := by
    rw [h2]
    intro heq
    exact absurd (Option.some.inj heq) (Nat.ne_of_gt hlt)
  exact step_preserves_leaked hs i w hne h3 hwr

/-- C9, witness: starting on top of the freshly constructed coordinator's
worker 0 repoints the handle at the new worker 1. -/
theorem c9_start_overwrites_handle_witness :
    ((initMonitor ⟨true, "http://x", 10, 5⟩ none).start none).monitor_thread = some 1 := by
  have h := c9_start_overwrites_handle (initMonitor ⟨true, "http://x", 10, 5⟩ none) none
    0 ⟨true, false⟩ (by decide) (by decide) (by decide) (by decide) (by decide)
  exact h.2.1.trans (by decide)

end StreamMonitorModel
